import Mathlib

/-!
Shallow embedding of `generator/randomizerinterface.py` from the
ctjot_web_generator repository, together with theorems checking the
natural-language specification against it.

The file translates the claim-relevant operations of the Python source into
executable Lean definitions: `configure_seed_from_settings`, `clamp`,
`get_character_name`, `get_web_spoiler_log`, `get_inv_enums_map` (with the
`enums_map` table) and `get_base_rom`.  Objects owned by the external
randomizer library (`randosettings.Settings`, `randoconfig.RandoConfig`,
enum string representations, the proof string produced by `logicwriter`)
are modelled by explicit structures and parameters carrying exactly the
fields and values this file reads.
-/

set_option autoImplicit false

namespace CtjotWeb

/-- Members of the external `randosettings.GameFlags` enum, exactly the ones
referenced by `randomizerinterface.py` (the `enums_map` table plus `MYSTERY`,
`BUCKET_LIST`, `FIX_GLITCH`, `FAST_TABS`, which already appear there). -/
inductive GameFlags where
  | FIX_GLITCH
  | BOSS_RANDO
  | BOSS_SCALE
  | ZEAL_END
  | FAST_PENDANT
  | LOCKED_CHARS
  | UNLOCKED_MAGIC
  | TAB_TREASURES
  | CHRONOSANITY
  | CHAR_RANDO
  | HEALING_ITEM_RANDO
  | GEAR_RANDO
  | MYSTERY
  | EPOCH_FAIL
  | DUPLICATE_CHARS
  | DUPLICATE_TECHS
  | UNLOCKED_SKYGATES
  | ADD_SUNKEEP_SPOT
  | ADD_BEKKLER_SPOT
  | ADD_CYRUS_SPOT
  | RESTORE_TOOLS
  | ADD_OZZIE_SPOT
  | RESTORE_JOHNNY_RACE
  | ADD_RACELOG_SPOT
  | REMOVE_BLACK_OMEN_SPOT
  | SPLIT_ARRIS_DOME
  | VANILLA_ROBO_RIBBON
  | VANILLA_DESERT
  | USE_ANTILIFE
  | TACKLE_EFFECTS_ON
  | STARTERS_SUFFICIENT
  | BUCKET_LIST
  | ROCKSANITY
  | TECH_DAMAGE_RANDO
  | VISIBLE_HEALTH
  | BOSS_SIGHTSCOPE
  | FAST_TABS
  | FREE_MENU_GLITCH
  deriving DecidableEq

/-- Members of the external `randosettings.ROFlags` enum referenced by
`randomizerinterface.py`. -/
inductive ROFlags where
  | BOSS_SPOT_HP
  | PRESERVE_PARTS
  deriving DecidableEq

/-- The `bucket_settings` component of the external `randosettings.Settings`
object: `get_web_spoiler_log` reads only its `num_objectives` field. -/
structure BucketSettings where
  num_objectives : Nat
  deriving DecidableEq

/-- The external `randosettings.Settings` object, carrying exactly the fields
`randomizerinterface.py` reads or writes for the claims checked here:
`seed`, the `gameflags` flag set (a set of `GameFlags` members, modelled as a
list), `bucket_settings`, and the `char_settings.names` array. -/
structure Settings where
  seed : String
  gameflags : List GameFlags
  bucket_settings : BucketSettings
  char_names : List String
  deriving DecidableEq

/-- The `InvalidSettingsException` class raised by
`configure_seed_from_settings`; it carries the exception message. -/
structure InvalidSettingsException where
  msg : String
  deriving DecidableEq

/-- Result of a normal completion of `configure_seed_from_settings`:
the returned nonce, the seed value in effect during the
`set_random_config` call, and the final state of the (mutated) settings
object. -/
structure ConfigureOutcome where
  nonce : String
  genSeed : String
  settings : Settings
  deriving DecidableEq

/-- The `while seed == new_seed: new_seed = self.get_random_seed()` loop of
`configure_seed_from_settings`: `new_seed` starts equal to `seed`, so the
loop body always runs at least once and the loop exits at the first value of
the random stream different from `seed`.  `randSeeds` is the stream of
successive `get_random_seed()` results; `none` means the stream was
exhausted with every draw equal to `seed` (the Python loop would keep
drawing). -/
def findNewSeed (seed : String) : List String → Option String
  | [] => none
  | s :: rest => if seed = s then findNewSeed seed rest else some s

/-- `RandomizerInterface.configure_seed_from_settings`.  The two sources of
ambient state are passed explicitly: `randSeeds` is the stream of successive
`get_random_seed()` results and `nonceMicro` is
`datetime.datetime.now().microsecond`.  A `.ok none` result models the
(probability-zero) divergence of the seed-redraw loop when the supplied
stream never differs from the current seed; every terminating run is
`.error` or `.ok (some _)`. -/
def configure_seed_from_settings (settings : Settings) (is_race_seed : Bool)
    (randSeeds : List String) (nonceMicro : Nat) :
    Except InvalidSettingsException (Option ConfigureOutcome) :=
  if GameFlags.MYSTERY ∈ settings.gameflags then
    Except.error ⟨"Mystery seeds cannot be cloned."⟩
  else
    match findNewSeed settings.seed randSeeds with
    | none => Except.ok none
    | some newSeed =>
      if is_race_seed then
        let nonce := toString nonceMicro
        Except.ok (some ⟨nonce, newSeed ++ nonce, { settings with seed := newSeed }⟩)
      else
        Except.ok (some ⟨"", newSeed, { settings with seed := newSeed }⟩)

/-- `RandomizerInterface.clamp`: `max(min_val, min(value, max_val))`.  The
call sites use it on integers. -/
def clamp (value min_val max_val : Int) : Int :=
  max min_val (min value max_val)

/-- Python's `str.isalnum`: true for a non-empty string all of whose
characters are alphanumeric.  The per-character classification is Python's
Unicode-aware test (Unicode letter and numeric categories, dependent on the
interpreter's Unicode database), which is external to the source; it is
passed in as `alnum`, while the structure of `str.isalnum` — non-empty and
pointwise alphanumeric — is embedded here. -/
def py_isalnum (alnum : Char → Bool) (s : String) : Bool :=
  !s.data.isEmpty && s.data.all alnum

/-- `RandomizerInterface.get_character_name`.  The `name` argument may be
`None` (modelled by `Option`); `alnum` is Python's per-character
alphanumeric classification. -/
def get_character_name (alnum : Char → Bool) (name : Option String)
    (default_name : String) : String :=
  match name with
  | none => default_name
  | some n => if n = "" ∨ 5 < n.length ∨ ¬ py_isalnum alnum n then default_name else n

/-- One entry of the web spoiler log: a Python `dict` of string keys to
string values (the regex group `sphere` can be `None`, hence `Option`). -/
abbrev SpoilerItem := List (String × Option String)

/-- The web spoiler log: a Python `dict` mapping section names to lists of
entries, modelled as an association list in insertion order. -/
abbrev SpoilerLog := List (String × List SpoilerItem)

/-- One element of `config.objectives` (external `randoconfig` object):
`get_web_spoiler_log` reads only its `desc` field. -/
structure Objective where
  desc : String
  deriving DecidableEq

/-- One element of `config.key_item_locations`: `get_web_spoiler_log` reads
`location.getName()` and `str(location.getKeyItem())`. -/
structure KeyItemLocation where
  name : String
  keyItem : String
  deriving DecidableEq

/-- The external `bossrandotypes.BossID` enum as read by
`get_web_spoiler_log`: either the distinguished `TWIN_BOSS` member or any
other member, carried by its `str()` representation. -/
inductive BossID where
  | TWIN_BOSS
  | named (s : String)
  deriving DecidableEq

/-- The external `randoconfig.RandoConfig` object, carrying exactly the data
`get_web_spoiler_log` reads.  `char_assign_dict` maps recruit spots to the
`str()` of their `held_char`; `pcstats_assignment` models
`config.pcstats.get_character_assignment` (as a `str()` value);
`twin_boss_name` models the lookup chain
`config.enemy_dict[config.boss_data_dict[TWIN_BOSS].parts[0].enemy_id].name`
through external data. -/
structure RandoConfig where
  objectives : List Objective
  char_assign_dict : List (String × String)
  pcstats_assignment : String → String
  key_item_locations : List KeyItemLocation
  boss_assign_dict : List (String × BossID)
  twin_boss_name : String

/-- The dictionary literal `get_web_spoiler_log` starts from. -/
def initialSpoilerLog : SpoilerLog :=
  [("characters", []), ("key_items", []), ("bosses", []), ("objectives", []), ("spheres", [])]

/-- `spoiler_log[key].append(item)`: append `item` to the list stored under
`key` (all call sites use a key present in the dictionary). -/
def appendAt (log : SpoilerLog) (key : String) (item : SpoilerItem) : SpoilerLog :=
  log.map (fun kv => (kv.1, if kv.1 = key then kv.2 ++ [item] else kv.2))

/-- Dictionary read `log[key]` (first entry wins; the logs built here have
distinct keys). -/
def spoilerGet : SpoilerLog → String → List SpoilerItem
  | [], _ => []
  | (a, b) :: t, k => if a = k then b else spoilerGet t k

/-- The character class of the regex escape `\s` (no newline can occur
inside a single line). -/
def isWs (c : Char) : Bool :=
  c == ' ' || c == '\t' || c == '\r' || c == '\x0b' || c == '\x0c'

/-- Helper for `py_splitlines`: split a character list at `'\n'`, dropping
the piece after a trailing newline (Python keeps no final empty line). -/
def splitLinesAux : List Char → List Char → List (List Char)
  | [], acc => if acc.isEmpty then [] else [acc.reverse]
  | c :: cs, acc =>
    if c = '\n' then acc.reverse :: splitLinesAux cs [] else splitLinesAux cs (c :: acc)

/-- Python's `str.splitlines` restricted to `'\n'` separators (the only line
break the proof string contains): pieces between newlines, without the empty
piece after a trailing newline, and `[]` on the empty string. -/
def py_splitlines (s : String) : List String :=
  (splitLinesAux s.data []).map String.mk

/-- Matching `\s*` then `.+` (both greedy, with backtracking) against the
text after the colon of the optional sphere marker.  `none` when the text is
empty (`.+` needs a character); otherwise `\s*` takes the longest
whitespace run that still leaves a character for `.+`. -/
def descTail : List Char → Option String
  | [] => none
  | c :: cs =>
    let stripped := (c :: cs).dropWhile isWs
    if stripped.isEmpty then some (String.mk [(c :: cs).getLastD c])
    else some (String.mk stripped)

/-- `re.search` of `((?P<sphere>GO|(\d?)):\s*)?(?P<desc>.+)` on one line,
returning `groupdict()`.  Since the optional marker group makes the pattern
match at position 0 of any non-empty line, the result is `none` exactly on
the empty line.  The marker alternatives are tried in regex order: `GO`
before a colon, a single digit before a colon, the empty `\d?` before a
colon; when the marker attempt cannot complete (nothing after the colon for
`.+`), the engine backtracks to an unmatched marker group and `desc` takes
the whole line with `sphere = None`. -/
def parseSphereLine (line : String) : Option SpoilerItem :=
  match line.data with
  | [] => none
  | c :: rest =>
    let attempt : Option (String × String) :=
      if c = 'G' then
        match rest with
        | 'O' :: ':' :: tail => (descTail tail).map (fun d => ("GO", d))
        | _ => none
      else if c.isDigit then
        match rest with
        | ':' :: tail => (descTail tail).map (fun d => (String.mk [c], d))
        | _ => none
      else if c = ':' then
        (descTail rest).map (fun d => ("", d))
      else none
    match attempt with
    | some sd => some [("sphere", some sd.1), ("desc", some sd.2)]
    | none => some [("sphere", none), ("desc", some line)]

/-- The entry appended for the objective at (0-based) index `ind`. -/
def objectiveEntry (ind : Nat) (desc : String) : SpoilerItem :=
  [("name", some ("Objective " ++ toString (ind + 1))), ("desc", some desc)]

/-- The `for ind, objective in enumerate(config.objectives)` loop of
`get_web_spoiler_log`, which breaks at `ind >= num_objs`. -/
def objectiveLoop (numObjs : Nat) : Nat → List Objective → List SpoilerItem
  | _, [] => []
  | ind, obj :: rest =>
    if numObjs ≤ ind then []
    else objectiveEntry ind obj.desc :: objectiveLoop numObjs (ind + 1) rest

/-- The objectives section of `get_web_spoiler_log` (guarded by
`BUCKET_LIST`). -/
def addObjectives (settings : Settings) (config : RandoConfig) (log : SpoilerLog) : SpoilerLog :=
  if GameFlags.BUCKET_LIST ∈ settings.gameflags then
    (objectiveLoop settings.bucket_settings.num_objectives 0 config.objectives).foldl
      (fun l item => appendAt l "objectives" item) log
  else log

/-- The character-data section of `get_web_spoiler_log`. -/
def addCharacters (config : RandoConfig) (log : SpoilerLog) : SpoilerLog :=
  config.char_assign_dict.foldl
    (fun l rc =>
      appendAt l "characters"
        [("location", some rc.1), ("character", some rc.2),
         ("reassign", some (config.pcstats_assignment rc.2))])
    log

/-- The key-item section of `get_web_spoiler_log`. -/
def addKeyItems (config : RandoConfig) (log : SpoilerLog) : SpoilerLog :=
  config.key_item_locations.foldl
    (fun l loc => appendAt l "key_items" [("location", some loc.name), ("key", some loc.keyItem)])
    log

/-- The boss string for one assignment entry (`"Twin " + twin_name` for the
twin boss, `str()` of the member otherwise). -/
def bossString (config : RandoConfig) (b : BossID) : String :=
  match b with
  | BossID.TWIN_BOSS => "Twin " ++ config.twin_boss_name
  | BossID.named s => s

/-- The boss-data section of `get_web_spoiler_log`. -/
def addBosses (config : RandoConfig) (log : SpoilerLog) : SpoilerLog :=
  config.boss_assign_dict.foldl
    (fun l lb => appendAt l "bosses" [("location", some lb.1), ("boss", some (bossString config lb.2))])
    log

/-- The sphere-data section of `get_web_spoiler_log`: split the proof string
into lines and append the `groupdict` of every line the regex matches. -/
def addSpheres (proofStr : String) (log : SpoilerLog) : SpoilerLog :=
  (py_splitlines proofStr).foldl
    (fun l line =>
      match parseSphereLine line with
      | some item => appendAt l "spheres" item
      | none => l)
    log

/-- `RandomizerInterface.get_web_spoiler_log`.  The external call
`logicwriter.get_proof_string_from_settings_config(settings, config)` is
passed in as the function `gps`. -/
def get_web_spoiler_log (gps : Settings → RandoConfig → String)
    (settings : Settings) (config : RandoConfig) : SpoilerLog :=
  addSpheres (gps settings config)
    (addBosses config
      (addKeyItems config
        (addCharacters config
          (addObjectives settings config initialSpoilerLog))))

/-- A value of the module-level `enums_map` dictionary: either a list of
enum string representations or a nested dictionary. -/
inductive EnumsVal where
  | strs (l : List String)
  | dict (m : List (String × String))
  deriving DecidableEq

/-- The entries of `enums_map["gameflags"]`, in source order: options.js
form key paired with the `GameFlags` member whose `str()` is the value. -/
def gameflags_entries : List (String × GameFlags) :=
  [("disable_glitches", GameFlags.FIX_GLITCH),
   ("boss_rando", GameFlags.BOSS_RANDO),
   ("boss_scaling", GameFlags.BOSS_SCALE),
   ("zeal", GameFlags.ZEAL_END),
   ("early_pendant", GameFlags.FAST_PENDANT),
   ("locked_chars", GameFlags.LOCKED_CHARS),
   ("unlocked_magic", GameFlags.UNLOCKED_MAGIC),
   ("tab_treasures", GameFlags.TAB_TREASURES),
   ("chronosanity", GameFlags.CHRONOSANITY),
   ("char_rando", GameFlags.CHAR_RANDO),
   ("healing_item_rando", GameFlags.HEALING_ITEM_RANDO),
   ("gear_rando", GameFlags.GEAR_RANDO),
   ("mystery_seed", GameFlags.MYSTERY),
   ("epoch_fail", GameFlags.EPOCH_FAIL),
   ("duplicate_characters", GameFlags.DUPLICATE_CHARS),
   ("duplicate_duals", GameFlags.DUPLICATE_TECHS),
   ("unlocked_skyways", GameFlags.UNLOCKED_SKYGATES),
   ("add_sunkeep_spot", GameFlags.ADD_SUNKEEP_SPOT),
   ("add_bekkler_spot", GameFlags.ADD_BEKKLER_SPOT),
   ("add_cyrus_spot", GameFlags.ADD_CYRUS_SPOT),
   ("restore_tools", GameFlags.RESTORE_TOOLS),
   ("add_ozzie_spot", GameFlags.ADD_OZZIE_SPOT),
   ("restore_johnny_race", GameFlags.RESTORE_JOHNNY_RACE),
   ("add_racelog_spot", GameFlags.ADD_RACELOG_SPOT),
   ("remove_black_omen_spot", GameFlags.REMOVE_BLACK_OMEN_SPOT),
   ("split_arris_dome", GameFlags.SPLIT_ARRIS_DOME),
   ("vanilla_robo_ribbon", GameFlags.VANILLA_ROBO_RIBBON),
   ("vanilla_desert", GameFlags.VANILLA_DESERT),
   ("use_antilife", GameFlags.USE_ANTILIFE),
   ("tackle_effects", GameFlags.TACKLE_EFFECTS_ON),
   ("starters_sufficient", GameFlags.STARTERS_SUFFICIENT),
   ("bucket_list", GameFlags.BUCKET_LIST),
   ("rocksanity", GameFlags.ROCKSANITY),
   ("tech_damage_rando", GameFlags.TECH_DAMAGE_RANDO),
   ("sightscope_always_on", GameFlags.VISIBLE_HEALTH),
   ("boss_sightscope", GameFlags.BOSS_SIGHTSCOPE),
   ("fast_tabs", GameFlags.FAST_TABS),
   ("free_menu_glitch", GameFlags.FREE_MENU_GLITCH)]

/-- The entries of `enums_map["roflags"]`, in source order. -/
def roflags_entries : List (String × ROFlags) :=
  [("boss_spot_hp", ROFlags.BOSS_SPOT_HP),
   ("legacy_boss_placement", ROFlags.PRESERVE_PARTS)]

/-- String representations owned by the external `randosettings` module:
`str()` of each flag enum member and the `[str(k) for k in list(...)]`
comprehensions over whole enums. -/
structure ExternalStrings where
  strGF : GameFlags → String
  strRO : ROFlags → String
  gameModeStrs : List String
  shopPricesStrs : List String
  itemDifficultyStrs : List String
  difficultyNormalStr : String
  difficultyHardStr : String
  techOrderStrs : List String

/-- The module-level `enums_map` dictionary, as a function of the external
enum string representations. -/
def enums_map (ext : ExternalStrings) : List (String × EnumsVal) :=
  [("game_mode", EnumsVal.strs ext.gameModeStrs),
   ("shopprices", EnumsVal.strs ext.shopPricesStrs),
   ("item_difficulty", EnumsVal.strs ext.itemDifficultyStrs),
   ("enemy_difficulty", EnumsVal.strs [ext.difficultyNormalStr, ext.difficultyHardStr]),
   ("techorder", EnumsVal.strs ext.techOrderStrs),
   ("gameflags", EnumsVal.dict (gameflags_entries.map (fun p => (p.1, ext.strGF p.2)))),
   ("roflags", EnumsVal.dict (roflags_entries.map (fun p => (p.1, ext.strRO p.2))))]

/-- Python dict insertion: overwrite in place when the key exists, append
otherwise. -/
def pyDictInsert {α : Type} (m : List (String × α)) (k : String) (v : α) :
    List (String × α) :=
  if m.any (fun p => p.1 == k) then m.map (fun p => if p.1 = k then (p.1, v) else p)
  else m ++ [(k, v)]

/-- The dict comprehension `{str(v): k for k, v in mapping.items()}` of
`get_inv_enums_map` (`str(v)` is the identity here: the values of the
flag dictionaries are already strings). -/
def pyInvert (m : List (String × String)) : List (String × String) :=
  m.foldl (fun acc p => pyDictInsert acc p.2 p.1) []

/-- `RandomizerInterface.get_inv_enums_map`: keep the dictionary-valued
entries of `enums_map` and invert each. -/
def get_inv_enums_map (ext : ExternalStrings) : List (String × List (String × String)) :=
  (enums_map ext).filterMap
    (fun p =>
      match p.2 with
      | EnumsVal.dict m => some (p.1, pyInvert m)
      | EnumsVal.strs _ => none)

/-- Whether a POSIX path is absolute (leading slash). -/
def isAbsolute (path : String) : Bool :=
  match path.data with
  | '/' :: _ => true
  | _ => false

/-- Resolution of the path handed to `open` against the process working
directory: an absolute path stands alone, a relative one is looked up under
the working directory. -/
def resolvePath (cwd path : String) : String :=
  if isAbsolute path then path else cwd ++ "/" ++ path

/-- `RandomizerInterface.get_base_rom`: `open("ct.sfc", 'rb')` — the literal
relative path `"ct.sfc"`, resolved by the operating system against the
working directory `cwd`.  The filesystem is the map `fs` from paths to file
bytes; a missing file (`none`) is the delegated `FileNotFoundError`. -/
def get_base_rom (cwd : String) (fs : String → Option (List Nat)) : Option (List Nat) :=
  fs (resolvePath cwd "ct.sfc")

/-- Modelled from the spec: the spec and the function's docstring locate
`ct.sfc` in the web app's fixed base directory `BASE_DIR`
(`os.path.join(BASE_DIR, "ct.sfc")`); the Django settings module defining
`BASE_DIR` is not part of the supplied source. -/
def spec_base_rom_path (base_dir : String) : String :=
  base_dir ++ "/" ++ "ct.sfc"

/-- The visible operations of the component that this file embeds, each with
its inputs (external state passed explicitly). -/
inductive Operation where
  | clampOp (value min_val max_val : Int)
  | getCharacterNameOp (alnum : Char → Bool) (name : Option String) (default_name : String)
  | getWebSpoilerLogOp (gps : Settings → RandoConfig → String)
      (settings : Settings) (config : RandoConfig)
  | getInvEnumsMapOp (ext : ExternalStrings)
  | getBaseRomOp (cwd : String) (fs : String → Option (List Nat))
  | configureSeedOp (settings : Settings) (is_race_seed : Bool)
      (randSeeds : List String) (nonceMicro : Nat)

/-- Result values of the visible operations. -/
inductive OpResult where
  | intRes (i : Int)
  | strRes (s : String)
  | logRes (l : SpoilerLog)
  | invRes (m : List (String × List (String × String)))
  | romRes (r : Option (List Nat))
  | cfgRes (o : Option ConfigureOutcome)

/-- Run one visible operation.  Each Python body without a `raise` statement
produces `.ok` on every path; `configure_seed_from_settings` is the only
operation whose body can raise `InvalidSettingsException`. -/
def runOperation : Operation → Except InvalidSettingsException OpResult
  | Operation.clampOp v lo hi => Except.ok (OpResult.intRes (clamp v lo hi))
  | Operation.getCharacterNameOp alnum n d =>
      Except.ok (OpResult.strRes (get_character_name alnum n d))
  | Operation.getWebSpoilerLogOp gps s c =>
      Except.ok (OpResult.logRes (get_web_spoiler_log gps s c))
  | Operation.getInvEnumsMapOp ext => Except.ok (OpResult.invRes (get_inv_enums_map ext))
  | Operation.getBaseRomOp cwd fs => Except.ok (OpResult.romRes (get_base_rom cwd fs))
  | Operation.configureSeedOp s race rs n =>
      (configure_seed_from_settings s race rs n).map OpResult.cfgRes

/-! ### Helper lemmas -/

theorem findNewSeed_ne {seed : String} :
    ∀ {l : List String} {r : String}, findNewSeed seed l = some r → r ≠ seed := by
  intro l
  induction l with
  | nil => intro r h; simp [findNewSeed] at h
  | cons hd tl ih =>
    intro r h
    rw [findNewSeed] at h
    by_cases he : seed = hd
    · rw [if_pos he] at h
      exact ih h
    · rw [if_neg he] at h
      cases h
      exact fun hh => he hh.symm

/-! ### Claim theorems -/

/-- C1: for every `Settings` whose `gameflags` contain `MYSTERY`,
`configure_seed_from_settings` raises `InvalidSettingsException` (for either
value of `is_race_seed` and any ambient randomness); it never completes
normally. -/
theorem configure_mystery_raises (settings : Settings) (is_race_seed : Bool)
    (randSeeds : List String) (nonceMicro : Nat)
    (h : GameFlags.MYSTERY ∈ settings.gameflags) :
    configure_seed_from_settings settings is_race_seed randSeeds nonceMicro =
      Except.error ⟨"Mystery seeds cannot be cloned."⟩ := by
  rw [configure_seed_from_settings, if_pos h]

/-- Witness for C1 at a concrete mystery settings object. -/
theorem configure_mystery_raises_witness :
    GameFlags.MYSTERY ∈ (⟨"AB", [GameFlags.MYSTERY], ⟨1⟩, []⟩ : Settings).gameflags ∧
    configure_seed_from_settings ⟨"AB", [GameFlags.MYSTERY], ⟨1⟩, []⟩ true ["CD"] 7 =
      Except.error ⟨"Mystery seeds cannot be cloned."⟩ :=
  ⟨by decide, configure_mystery_raises ⟨"AB", [GameFlags.MYSTERY], ⟨1⟩, []⟩ true ["CD"] 7 (by decide)⟩

/-- C2: with `min_val ≤ max_val`, `clamp` returns `min_val` below the range,
`max_val` above it, and the value itself inside it. -/
theorem clamp_spec (value min_val max_val : Int) (h : min_val ≤ max_val) :
    (value < min_val → clamp value min_val max_val = min_val) ∧
    (max_val < value → clamp value min_val max_val = max_val) ∧
    (min_val ≤ value → value ≤ max_val → clamp value min_val max_val = value) := by
  refine ⟨fun hv => ?_, fun hv => ?_, fun hv1 hv2 => ?_⟩ <;>
    simp only [clamp, max_def, min_def] <;> split_ifs <;> omega

/-- Witness for C2 at concrete inputs. -/
theorem clamp_spec_witness :
    (0 : Int) ≤ 7 ∧ clamp (-5) 0 7 = 0 ∧ clamp 9 0 7 = 7 ∧ clamp 3 0 7 = 3 :=
  ⟨by decide,
   (clamp_spec (-5) 0 7 (by decide)).1 (by decide),
   (clamp_spec 9 0 7 (by decide)).2.1 (by decide),
   (clamp_spec 3 0 7 (by decide)).2.2 (by decide) (by decide)⟩

/-- C3: for Python's per-character alphanumeric classification `alnum`
(whatever the interpreter's Unicode database makes it), a name longer than
five characters or containing a non-alphanumeric character falls back to
the default; a name of one to five alphanumeric characters is returned
unchanged. -/
theorem get_character_name_spec (alnum : Char → Bool) (name default_name : String) :
    ((5 < name.length ∨ ∃ c ∈ name.data, alnum c = false) →
      get_character_name alnum (some name) default_name = default_name) ∧
    (1 ≤ name.length → name.length ≤ 5 → (∀ c ∈ name.data, alnum c = true) →
      get_character_name alnum (some name) default_name = name) := by
  have hlen : name.length = name.data.length := rfl
  constructor
  · intro h
    have hcond : name = "" ∨ 5 < name.length ∨ ¬ py_isalnum alnum name := by
      rcases h with h | ⟨c, hc, hbad⟩
      · exact Or.inr (Or.inl h)
      · refine Or.inr (Or.inr ?_)
        simp only [py_isalnum, Bool.and_eq_true, List.all_eq_true, not_and]
        intro _ hall
        have := hall c hc
        rw [hbad] at this
        exact Bool.false_ne_true this
    show (if name = "" ∨ 5 < name.length ∨ ¬ py_isalnum alnum name then default_name else name) =
      default_name
    rw [if_pos hcond]
  · intro h1 h5 hall
    have hne : ¬ name = "" := by
      intro he
      rw [he] at h1
      simp at h1
    have hpy : py_isalnum alnum name = true := by
      simp only [py_isalnum, Bool.and_eq_true, List.all_eq_true]
      constructor
      · cases hd : name.data with
        | nil => rw [hlen, hd] at h1; simp at h1
        | cons a l => simp [hd]
      · exact hall
    have hcond : ¬(name = "" ∨ 5 < name.length ∨ ¬ py_isalnum alnum name) := by
      push_neg
      exact ⟨hne, by omega, by simp [hpy]⟩
    show (if name = "" ∨ 5 < name.length ∨ ¬ py_isalnum alnum name then default_name else name) =
      name
    rw [if_neg hcond]

/-- Witness for C3 at a concrete classification: a too-long name falls back,
a short alphanumeric name passes through. -/
theorem get_character_name_spec_witness :
    get_character_name Char.isAlphanum (some "Frog!!") "Frog" = "Frog" ∧
    get_character_name Char.isAlphanum (some "Ayla") "x" = "Ayla" :=
  ⟨(get_character_name_spec Char.isAlphanum "Frog!!" "Frog").1 (Or.inl (by decide)),
   (get_character_name_spec Char.isAlphanum "Ayla" "x").2 (by decide) (by decide) (by decide)⟩

/-- C8: `get_character_name` returns the default when the name is `None` or
the empty string (for any per-character classification, since those guard
disjuncts short-circuit before the `isalnum` test), although the empty
string is not longer than five characters and each of its (zero) characters
is alphanumeric. -/
theorem get_character_name_none_empty (alnum : Char → Bool) (default_name : String) :
    get_character_name alnum none default_name = default_name ∧
    get_character_name alnum (some "") default_name = default_name ∧
    ("" : String).length ≤ 5 ∧
    ("" : String).data.all alnum = true := by
  refine ⟨rfl, ?_, by decide, rfl⟩
  simp [get_character_name]

/-- Concrete non-mystery settings object for the C5 counterexample. -/
def c5Settings : Settings := ⟨"AB", [], ⟨1⟩, ["Crono"]⟩

/-- C5 counterexample: on a concrete non-mystery settings object,
`configure_seed_from_settings` completes normally but the settings object it
was given ends with a different `seed` field — the operation is not
side-effect-free on its input. -/
theorem configure_mutates_settings_cex :
    configure_seed_from_settings c5Settings false ["AB", "CD"] 0 =
      Except.ok (some ⟨"", "CD", { c5Settings with seed := "CD" }⟩) ∧
    ({ c5Settings with seed := "CD" } : Settings) ≠ c5Settings :=
  ⟨rfl, by decide⟩

/-- C5 amended: when `configure_seed_from_settings` completes normally it
mutates exactly the `seed` field of the settings object passed to it,
replacing it by a freshly drawn seed different from the original; the
`gameflags`, `bucket_settings` and character-name fields are unchanged. -/
theorem configure_frame_amended (settings : Settings) (is_race_seed : Bool)
    (randSeeds : List String) (nonceMicro : Nat) (out : ConfigureOutcome)
    (hok : configure_seed_from_settings settings is_race_seed randSeeds nonceMicro =
      Except.ok (some out)) :
    out.settings.seed ≠ settings.seed ∧
    out.settings.gameflags = settings.gameflags ∧
    out.settings.bucket_settings = settings.bucket_settings ∧
    out.settings.char_names = settings.char_names := by
  rw [configure_seed_from_settings] at hok
  by_cases hm : GameFlags.MYSTERY ∈ settings.gameflags
  · rw [if_pos hm] at hok
    cases hok
  · rw [if_neg hm] at hok
    cases hfind : findNewSeed settings.seed randSeeds with
    | none => rw [hfind] at hok; cases hok
    | some newSeed =>
      rw [hfind] at hok
      have hne := findNewSeed_ne hfind
      cases is_race_seed with
      | false =>
        simp only [Bool.false_eq_true, if_false, Except.ok.injEq, Option.some.injEq] at hok
        rw [← hok]
        exact ⟨hne, rfl, rfl, rfl⟩
      | true =>
        simp only [if_true, Except.ok.injEq, Option.some.injEq] at hok
        rw [← hok]
        exact ⟨hne, rfl, rfl, rfl⟩

/-- Witness for C5's amended claim at a concrete input. -/
theorem configure_frame_amended_witness :
    ("CD" : String) ≠ c5Settings.seed ∧
    ({ c5Settings with seed := "CD" } : Settings).gameflags = c5Settings.gameflags ∧
    ({ c5Settings with seed := "CD" } : Settings).bucket_settings = c5Settings.bucket_settings ∧
    ({ c5Settings with seed := "CD" } : Settings).char_names = c5Settings.char_names :=
  configure_frame_amended c5Settings false ["AB", "CD"] 0
    ⟨"", "CD", { c5Settings with seed := "CD" }⟩ rfl

/-- Concrete filesystem for the C6 counterexample: the base directory
`/srv/app` and the working directory `/home/user` each hold a `ct.sfc` with
different contents. -/
def c6fs : String → Option (List Nat) :=
  fun p =>
    if p = "/srv/app/ct.sfc" then some [0]
    else if p = "/home/user/ct.sfc" then some [1]
    else none

/-- C6 counterexample: `get_base_rom` opens the relative path `"ct.sfc"`,
which the operating system resolves against the process working directory —
when the working directory is not `BASE_DIR`, the bytes read are not those
of `BASE_DIR`'s `ct.sfc`. -/
theorem get_base_rom_path_cex :
    get_base_rom "/home/user" c6fs ≠ c6fs (spec_base_rom_path "/srv/app") := by
  decide

/-- C6 amended: `get_base_rom` reads exactly the file at the relative path
`"ct.sfc"` resolved against the process working directory (its result
depends on no other file), and it reads `BASE_DIR`'s `ct.sfc` when the
working directory is `BASE_DIR`. -/
theorem get_base_rom_amended (cwd base_dir : String)
    (fs fs2 : String → Option (List Nat)) :
    get_base_rom cwd fs = fs (resolvePath cwd "ct.sfc") ∧
    (fs (resolvePath cwd "ct.sfc") = fs2 (resolvePath cwd "ct.sfc") →
      get_base_rom cwd fs = get_base_rom cwd fs2) ∧
    (cwd = base_dir → get_base_rom cwd fs = fs (spec_base_rom_path base_dir)) := by
  refine ⟨rfl, fun h => h, fun h => ?_⟩
  rw [h]
  rfl

/-- Witness for C6's amended claim at a concrete input. -/
theorem get_base_rom_amended_witness :
    get_base_rom "/srv/app" c6fs = c6fs (spec_base_rom_path "/srv/app") :=
  (get_base_rom_amended "/srv/app" "/srv/app" c6fs c6fs).2.2 rfl

/-- Appending to one section never changes the key list of the log. -/
theorem appendAt_map_fst (log : SpoilerLog) (key : String) (item : SpoilerItem) :
    (appendAt log key item).map Prod.fst = log.map Prod.fst := by
  induction log with
  | nil => rfl
  | cons hd tl ih => simp [appendAt]

/-- A fold whose step preserves the key list preserves the key list. -/
theorem foldl_map_fst {α : Type} (g : SpoilerLog → α → SpoilerLog)
    (hg : ∀ l x, (g l x).map Prod.fst = l.map Prod.fst) :
    ∀ (xs : List α) (log : SpoilerLog),
      ((xs.foldl g log).map Prod.fst) = log.map Prod.fst := by
  intro xs
  induction xs with
  | nil => intro log; rfl
  | cons hd tl ih => intro log; rw [List.foldl_cons, ih, hg]

theorem addObjectives_map_fst (settings : Settings) (config : RandoConfig) (log : SpoilerLog) :
    (addObjectives settings config log).map Prod.fst = log.map Prod.fst := by
  rw [addObjectives]
  split
  · exact foldl_map_fst _ (fun l x => appendAt_map_fst l _ x) _ log
  · rfl

theorem addCharacters_map_fst (config : RandoConfig) (log : SpoilerLog) :
    (addCharacters config log).map Prod.fst = log.map Prod.fst :=
  foldl_map_fst _ (fun l _x => appendAt_map_fst l _ _) _ log

theorem addKeyItems_map_fst (config : RandoConfig) (log : SpoilerLog) :
    (addKeyItems config log).map Prod.fst = log.map Prod.fst :=
  foldl_map_fst _ (fun l _x => appendAt_map_fst l _ _) _ log

theorem addBosses_map_fst (config : RandoConfig) (log : SpoilerLog) :
    (addBosses config log).map Prod.fst = log.map Prod.fst :=
  foldl_map_fst _ (fun l _x => appendAt_map_fst l _ _) _ log

theorem addSpheres_map_fst (proofStr : String) (log : SpoilerLog) :
    (addSpheres proofStr log).map Prod.fst = log.map Prod.fst := by
  refine foldl_map_fst _ (fun l line => ?_) _ log
  cases parseSphereLine line with
  | none => rfl
  | some item => exact appendAt_map_fst l _ item

/-- C4: for every settings and config pair, the web spoiler log has exactly
the five keys `characters`, `key_items`, `bosses`, `objectives`, `spheres`,
in that order, each holding a list of entries. -/
theorem get_web_spoiler_log_keys (gps : Settings → RandoConfig → String)
    (settings : Settings) (config : RandoConfig) :
    (get_web_spoiler_log gps settings config).map Prod.fst =
      ["characters", "key_items", "bosses", "objectives", "spheres"] := by
  rw [get_web_spoiler_log, addSpheres_map_fst, addBosses_map_fst, addKeyItems_map_fst,
    addCharacters_map_fst, addObjectives_map_fst]
  rfl

/-- Appending under one key leaves every other section of the log
unchanged. -/
theorem appendAt_spoilerGet_ne (log : SpoilerLog) (key : String) (item : SpoilerItem)
    (k : String) (h : key ≠ k) :
    spoilerGet (appendAt log key item) k = spoilerGet log k := by
  induction log with
  | nil => rfl
  | cons hd tl ih =>
    show spoilerGet ((hd.1, if hd.1 = key then hd.2 ++ [item] else hd.2) :: appendAt tl key item) k =
      spoilerGet (hd :: tl) k
    by_cases hk : hd.1 = k
    · have hnk : ¬ hd.1 = key := fun hh => h (hh ▸ hk)
      simp only [spoilerGet, if_pos hk, if_neg hnk]
    · simp only [spoilerGet, if_neg hk]
      exact ih

/-- A fold whose step preserves one section preserves that section. -/
theorem foldl_spoilerGet {α : Type} (g : SpoilerLog → α → SpoilerLog) (k : String)
    (hg : ∀ l x, spoilerGet (g l x) k = spoilerGet l k) :
    ∀ (xs : List α) (log : SpoilerLog),
      spoilerGet (xs.foldl g log) k = spoilerGet log k := by
  intro xs
  induction xs with
  | nil => intro log; rfl
  | cons hd tl ih => intro log; rw [List.foldl_cons, ih, hg]

theorem addCharacters_spoilerGet (config : RandoConfig) (log : SpoilerLog) (k : String)
    (h : k ≠ "characters") :
    spoilerGet (addCharacters config log) k = spoilerGet log k :=
  foldl_spoilerGet _ k (fun l _x => appendAt_spoilerGet_ne l _ _ k (fun hh => h hh.symm)) _ log

theorem addKeyItems_spoilerGet (config : RandoConfig) (log : SpoilerLog) (k : String)
    (h : k ≠ "key_items") :
    spoilerGet (addKeyItems config log) k = spoilerGet log k :=
  foldl_spoilerGet _ k (fun l _x => appendAt_spoilerGet_ne l _ _ k (fun hh => h hh.symm)) _ log

theorem addBosses_spoilerGet (config : RandoConfig) (log : SpoilerLog) (k : String)
    (h : k ≠ "bosses") :
    spoilerGet (addBosses config log) k = spoilerGet log k :=
  foldl_spoilerGet _ k (fun l _x => appendAt_spoilerGet_ne l _ _ k (fun hh => h hh.symm)) _ log

theorem addSpheres_spoilerGet (proofStr : String) (log : SpoilerLog) (k : String)
    (h : k ≠ "spheres") :
    spoilerGet (addSpheres proofStr log) k = spoilerGet log k := by
  refine foldl_spoilerGet _ k (fun l line => ?_) _ log
  cases parseSphereLine line with
  | none => rfl
  | some item => exact appendAt_spoilerGet_ne l _ item k (fun hh => h hh.symm)

/-- Appending under a key that is present appends to that section. -/
theorem appendAt_spoilerGet_eq :
    ∀ (log : SpoilerLog) (key : String) (item : SpoilerItem),
      (log.map Prod.fst).contains key = true →
      spoilerGet (appendAt log key item) key = spoilerGet log key ++ [item] := by
  intro log
  induction log with
  | nil => intro key item h; simp at h
  | cons hd tl ih =>
    intro key item h
    show spoilerGet ((hd.1, if hd.1 = key then hd.2 ++ [item] else hd.2) :: appendAt tl key item)
      key = spoilerGet (hd :: tl) key ++ [item]
    by_cases hk : hd.1 = key
    · simp [spoilerGet, hk]
    · simp only [spoilerGet, if_neg hk]
      refine ih key item ?_
      simp only [List.map_cons, List.contains_cons, Bool.or_eq_true, beq_iff_eq] at h
      rcases h with h | h
      · exact absurd h.symm hk
      · exact h

/-- Folding appends under a present key concatenates the items, in order. -/
theorem foldl_appendAt_spoilerGet (key : String) :
    ∀ (xs : List SpoilerItem) (log : SpoilerLog),
      (log.map Prod.fst).contains key = true →
      spoilerGet (xs.foldl (fun l item => appendAt l key item) log) key =
        spoilerGet log key ++ xs := by
  intro xs
  induction xs with
  | nil => intro log h; simp
  | cons hd tl ih =>
    intro log h
    rw [List.foldl_cons, ih (appendAt log key hd) (by rw [appendAt_map_fst]; exact h),
      appendAt_spoilerGet_eq log key hd h]
    simp

/-- The objectives section of the finished log is exactly what the
objectives loop produced. -/
theorem get_web_spoiler_log_objectives (gps : Settings → RandoConfig → String)
    (settings : Settings) (config : RandoConfig) :
    spoilerGet (get_web_spoiler_log gps settings config) "objectives" =
      if GameFlags.BUCKET_LIST ∈ settings.gameflags then
        objectiveLoop settings.bucket_settings.num_objectives 0 config.objectives
      else [] := by
  rw [get_web_spoiler_log, addSpheres_spoilerGet _ _ _ (by decide),
    addBosses_spoilerGet _ _ _ (by decide), addKeyItems_spoilerGet _ _ _ (by decide),
    addCharacters_spoilerGet _ _ _ (by decide), addObjectives]
  split
  · rw [foldl_appendAt_spoilerGet "objectives" _ initialSpoilerLog (by decide)]
    rfl
  · rfl

/-- Unfolding of the objectives loop on the empty list. -/
theorem objectiveLoop_nil (numObjs ind : Nat) : objectiveLoop numObjs ind [] = [] := rfl

/-- Unfolding of the objectives loop on a non-empty list. -/
theorem objectiveLoop_cons (numObjs ind : Nat) (hd : Objective) (tl : List Objective) :
    objectiveLoop numObjs ind (hd :: tl) =
      if numObjs ≤ ind then []
      else objectiveEntry ind hd.desc :: objectiveLoop numObjs (ind + 1) tl := rfl

/-- The objectives loop emits at most `numObjs - ind` entries. -/
theorem objectiveLoop_length (numObjs : Nat) :
    ∀ (objs : List Objective) (ind : Nat),
      (objectiveLoop numObjs ind objs).length ≤ numObjs - ind := by
  intro objs
  induction objs with
  | nil => intro ind; rw [objectiveLoop_nil]; simp
  | cons hd tl ih =>
    intro ind
    rw [objectiveLoop_cons]
    by_cases h : numObjs ≤ ind
    · rw [if_pos h]; simp
    · rw [if_neg h]
      have := ih (ind + 1)
      simp only [List.length_cons]
      omega

/-- Each entry of the objectives loop is named after its index. -/
theorem objectiveLoop_get (numObjs : Nat) :
    ∀ (objs : List Objective) (ind i : Nat) (h : i < (objectiveLoop numObjs ind objs).length),
      ∃ d, (objectiveLoop numObjs ind objs).get ⟨i, h⟩ = objectiveEntry (ind + i) d := by
  intro objs
  induction objs with
  | nil => intro ind i h; rw [objectiveLoop_nil] at h; simp at h
  | cons hd tl ih =>
    intro ind i h
    by_cases hn : numObjs ≤ ind
    · exfalso
      rw [objectiveLoop_cons, if_pos hn] at h
      simp at h
    · revert h
      rw [objectiveLoop_cons, if_neg hn]
      intro h
      cases i with
      | zero => exact ⟨hd.desc, rfl⟩
      | succ j =>
        obtain ⟨d, hd'⟩ := ih (ind + 1) j (by simpa using h)
        refine ⟨d, ?_⟩
        have harith : ind + 1 + j = ind + (j + 1) := by omega
        simp only [List.get_cons_succ]
        rw [hd', harith]

/-- C10: the `objectives` section is empty when `BUCKET_LIST` is absent;
when the flag is present its length is at most
`bucket_settings.num_objectives` and its `i`-th entry is named
`Objective (i+1)`. -/
theorem spoiler_objectives_spec (gps : Settings → RandoConfig → String)
    (settings : Settings) (config : RandoConfig) :
    (GameFlags.BUCKET_LIST ∉ settings.gameflags →
      spoilerGet (get_web_spoiler_log gps settings config) "objectives" = []) ∧
    (GameFlags.BUCKET_LIST ∈ settings.gameflags →
      (spoilerGet (get_web_spoiler_log gps settings config) "objectives").length ≤
        settings.bucket_settings.num_objectives ∧
      ∀ i (h : i < (spoilerGet (get_web_spoiler_log gps settings config) "objectives").length),
        ∃ d, (spoilerGet (get_web_spoiler_log gps settings config) "objectives").get ⟨i, h⟩ =
          [("name", some ("Objective " ++ toString (i + 1))), ("desc", some d)]) := by
  rw [get_web_spoiler_log_objectives]
  constructor
  · intro h
    rw [if_neg h]
  · intro h
    rw [if_pos h]
    constructor
    · have := objectiveLoop_length settings.bucket_settings.num_objectives config.objectives 0
      omega
    · intro i hi
      obtain ⟨d, hd⟩ :=
        objectiveLoop_get settings.bucket_settings.num_objectives config.objectives 0 i hi
      refine ⟨d, ?_⟩
      rw [hd, Nat.zero_add]
      rfl

/-- Concrete inputs for the C10 witness. -/
def c10Gps : Settings → RandoConfig → String := fun _ _ => ""

/-- Concrete config for the C10 witness. -/
def c10Config : RandoConfig := ⟨[⟨"first"⟩, ⟨"second"⟩, ⟨"third"⟩], [], id, [], [], ""⟩

/-- Witness for C10: the flag-off case yields no objectives, the flag-on
case obeys the bound. -/
theorem spoiler_objectives_spec_witness :
    spoilerGet (get_web_spoiler_log c10Gps ⟨"s", [], ⟨2⟩, []⟩ c10Config) "objectives" = [] ∧
    (spoilerGet (get_web_spoiler_log c10Gps ⟨"s", [GameFlags.BUCKET_LIST], ⟨2⟩, []⟩ c10Config)
        "objectives").length ≤
      (⟨"s", [GameFlags.BUCKET_LIST], ⟨2⟩, []⟩ : Settings).bucket_settings.num_objectives :=
  ⟨(spoiler_objectives_spec c10Gps ⟨"s", [], ⟨2⟩, []⟩ c10Config).1 (by decide),
   ((spoiler_objectives_spec c10Gps ⟨"s", [GameFlags.BUCKET_LIST], ⟨2⟩, []⟩ c10Config).2
      (by decide)).1⟩

/-- Folding Python dict insertions of swapped pairs over an accumulator
whose keys avoid the incoming values (and with the values distinct) is plain
concatenation of the swapped pairs. -/
theorem pyInvert_go (m : List (String × String)) :
    ∀ acc : List (String × String),
      (m.map Prod.snd).Nodup →
      (∀ v ∈ m.map Prod.snd, acc.any (fun p => p.1 == v) = false) →
      m.foldl (fun a p => pyDictInsert a p.2 p.1) acc =
        acc ++ m.map (fun p => (p.2, p.1)) := by
  induction m with
  | nil => intro acc _ _; simp
  | cons hd tl ih =>
    intro acc hnodup hdisj
    have hnd : (hd.2 :: tl.map Prod.snd).Nodup := by simpa using hnodup
    have hhd : hd.2 ∉ tl.map Prod.snd := (List.nodup_cons.mp hnd).1
    have htl : (tl.map Prod.snd).Nodup := (List.nodup_cons.mp hnd).2
    have hno : acc.any (fun p => p.1 == hd.2) = false := hdisj hd.2 (by simp)
    have hins : pyDictInsert acc hd.2 hd.1 = acc ++ [(hd.2, hd.1)] := by
      rw [pyDictInsert, if_neg]
      simp [hno]
    rw [List.foldl_cons, hins, ih (acc ++ [(hd.2, hd.1)]) htl]
    · simp
    · intro v hv
      simp only [List.any_append, Bool.or_eq_false_iff]
      refine ⟨hdisj v (by simp [hv]), ?_⟩
      simp only [List.any_cons, List.any_nil, Bool.or_false, beq_eq_false_iff_ne, ne_eq]
      intro he
      exact hhd (he ▸ hv)

/-- With pairwise distinct values, the Python dict comprehension inverting a
mapping is just the list of swapped pairs. -/
theorem pyInvert_eq_map (m : List (String × String)) (h : (m.map Prod.snd).Nodup) :
    pyInvert m = m.map (fun p => (p.2, p.1)) := by
  rw [pyInvert, pyInvert_go m [] h (fun v _ => by simp)]
  rfl

/-- Looking a value up in the swapped list recovers its key, when the values
are pairwise distinct. -/
theorem lookup_map_swap :
    ∀ (m : List (String × String)) (fk fv : String),
      (m.map Prod.snd).Nodup → (fk, fv) ∈ m →
      List.lookup fv (m.map (fun p => (p.2, p.1))) = some fk := by
  intro m
  induction m with
  | nil => intro fk fv _ hmem; simp at hmem
  | cons hd tl ih =>
    intro fk fv hnodup hmem
    have hnd : (hd.2 :: tl.map Prod.snd).Nodup := by simpa using hnodup
    rw [List.map_cons]
    rcases List.mem_cons.mp hmem with heq | hmem2
    · rw [← heq]
      simp [List.lookup]
    · have hne : (fv == hd.2) = false := by
        simp only [beq_eq_false_iff_ne, ne_eq]
        intro he
        exact (List.nodup_cons.mp hnd).1 (he ▸ List.mem_map_of_mem Prod.snd hmem2)
      simp only [List.lookup, hne]
      exact ih fk fv (List.nodup_cons.mp hnd).2 hmem2

/-- Round trip through the inverted dictionary. -/
theorem lookup_pyInvert (m : List (String × String)) (fk fv : String)
    (hnodup : (m.map Prod.snd).Nodup) (hmem : (fk, fv) ∈ m) :
    List.lookup fv (pyInvert m) = some fk := by
  rw [pyInvert_eq_map m hnodup]
  exact lookup_map_swap m fk fv hnodup hmem

/-- C9: the keys of `get_inv_enums_map` are exactly the dictionary-valued
keys of `enums_map`, and on each of those dictionaries (whose enum strings
are pairwise distinct) looking an enum string up in the inverted dictionary
returns the options.js form key it came from. -/
theorem get_inv_enums_map_spec (ext : ExternalStrings) :
    (get_inv_enums_map ext).map Prod.fst =
      ((enums_map ext).filterMap (fun p =>
        match p.2 with
        | EnumsVal.dict _ => some p.1
        | EnumsVal.strs _ => none)) ∧
    (∀ key m, (key, EnumsVal.dict m) ∈ enums_map ext →
      (m.map Prod.snd).Nodup →
      ∀ fk fv, (fk, fv) ∈ m →
        ∃ inv, List.lookup key (get_inv_enums_map ext) = some inv ∧
          List.lookup fv inv = some fk) := by
  constructor
  · rfl
  · intro key m hmem hnodup fk fv hfv
    simp only [enums_map, List.mem_cons, List.not_mem_nil, or_false, false_or, and_false,
      false_and, Prod.mk.injEq, EnumsVal.dict.injEq] at hmem
    rcases hmem with ⟨h1, h2⟩ | ⟨h1, h2⟩ | ⟨h1, h2⟩ | ⟨h1, h2⟩ | ⟨h1, h2⟩ | ⟨h1, h2⟩ | ⟨h1, h2⟩
    · exact EnumsVal.noConfusion h2
    · exact EnumsVal.noConfusion h2
    · exact EnumsVal.noConfusion h2
    · exact EnumsVal.noConfusion h2
    · exact EnumsVal.noConfusion h2
    all_goals subst h1
    all_goals subst h2
    · refine ⟨pyInvert (gameflags_entries.map (fun p => (p.1, ext.strGF p.2))), ?_, ?_⟩
      · simp [get_inv_enums_map, enums_map, List.lookup]
      · exact lookup_pyInvert _ fk fv hnodup hfv
    · refine ⟨pyInvert (roflags_entries.map (fun p => (p.1, ext.strRO p.2))), ?_, ?_⟩
      · simp [get_inv_enums_map, enums_map, List.lookup]
      · exact lookup_pyInvert _ fk fv hnodup hfv

/-- Concrete sample of the external `str()` values of `GameFlags` members
(`str()` on a Python enum member prints `ClassName.MEMBER`), used to
instantiate the C9 witness. -/
def sampleGFStr : GameFlags → String
  | GameFlags.FIX_GLITCH => "GameFlags.FIX_GLITCH"
  | GameFlags.BOSS_RANDO => "GameFlags.BOSS_RANDO"
  | GameFlags.BOSS_SCALE => "GameFlags.BOSS_SCALE"
  | GameFlags.ZEAL_END => "GameFlags.ZEAL_END"
  | GameFlags.FAST_PENDANT => "GameFlags.FAST_PENDANT"
  | GameFlags.LOCKED_CHARS => "GameFlags.LOCKED_CHARS"
  | GameFlags.UNLOCKED_MAGIC => "GameFlags.UNLOCKED_MAGIC"
  | GameFlags.TAB_TREASURES => "GameFlags.TAB_TREASURES"
  | GameFlags.CHRONOSANITY => "GameFlags.CHRONOSANITY"
  | GameFlags.CHAR_RANDO => "GameFlags.CHAR_RANDO"
  | GameFlags.HEALING_ITEM_RANDO => "GameFlags.HEALING_ITEM_RANDO"
  | GameFlags.GEAR_RANDO => "GameFlags.GEAR_RANDO"
  | GameFlags.MYSTERY => "GameFlags.MYSTERY"
  | GameFlags.EPOCH_FAIL => "GameFlags.EPOCH_FAIL"
  | GameFlags.DUPLICATE_CHARS => "GameFlags.DUPLICATE_CHARS"
  | GameFlags.DUPLICATE_TECHS => "GameFlags.DUPLICATE_TECHS"
  | GameFlags.UNLOCKED_SKYGATES => "GameFlags.UNLOCKED_SKYGATES"
  | GameFlags.ADD_SUNKEEP_SPOT => "GameFlags.ADD_SUNKEEP_SPOT"
  | GameFlags.ADD_BEKKLER_SPOT => "GameFlags.ADD_BEKKLER_SPOT"
  | GameFlags.ADD_CYRUS_SPOT => "GameFlags.ADD_CYRUS_SPOT"
  | GameFlags.RESTORE_TOOLS => "GameFlags.RESTORE_TOOLS"
  | GameFlags.ADD_OZZIE_SPOT => "GameFlags.ADD_OZZIE_SPOT"
  | GameFlags.RESTORE_JOHNNY_RACE => "GameFlags.RESTORE_JOHNNY_RACE"
  | GameFlags.ADD_RACELOG_SPOT => "GameFlags.ADD_RACELOG_SPOT"
  | GameFlags.REMOVE_BLACK_OMEN_SPOT => "GameFlags.REMOVE_BLACK_OMEN_SPOT"
  | GameFlags.SPLIT_ARRIS_DOME => "GameFlags.SPLIT_ARRIS_DOME"
  | GameFlags.VANILLA_ROBO_RIBBON => "GameFlags.VANILLA_ROBO_RIBBON"
  | GameFlags.VANILLA_DESERT => "GameFlags.VANILLA_DESERT"
  | GameFlags.USE_ANTILIFE => "GameFlags.USE_ANTILIFE"
  | GameFlags.TACKLE_EFFECTS_ON => "GameFlags.TACKLE_EFFECTS_ON"
  | GameFlags.STARTERS_SUFFICIENT => "GameFlags.STARTERS_SUFFICIENT"
  | GameFlags.BUCKET_LIST => "GameFlags.BUCKET_LIST"
  | GameFlags.ROCKSANITY => "GameFlags.ROCKSANITY"
  | GameFlags.TECH_DAMAGE_RANDO => "GameFlags.TECH_DAMAGE_RANDO"
  | GameFlags.VISIBLE_HEALTH => "GameFlags.VISIBLE_HEALTH"
  | GameFlags.BOSS_SIGHTSCOPE => "GameFlags.BOSS_SIGHTSCOPE"
  | GameFlags.FAST_TABS => "GameFlags.FAST_TABS"
  | GameFlags.FREE_MENU_GLITCH => "GameFlags.FREE_MENU_GLITCH"

/-- Concrete sample of the external `str()` values of `ROFlags` members. -/
def sampleROStr : ROFlags → String
  | ROFlags.BOSS_SPOT_HP => "ROFlags.BOSS_SPOT_HP"
  | ROFlags.PRESERVE_PARTS => "ROFlags.PRESERVE_PARTS"

/-- Concrete sample instantiation of the external enum strings. -/
def sampleExt : ExternalStrings :=
  ⟨sampleGFStr, sampleROStr, [], [], [], "Difficulty.NORMAL", "Difficulty.HARD", []⟩

/-- Witness for C9: with the sample enum strings (pairwise distinct), the
round trip through the inverted `gameflags` dictionary recovers the
`mystery_seed` form key. -/
theorem get_inv_enums_map_spec_witness :
    ∃ inv, List.lookup "gameflags" (get_inv_enums_map sampleExt) = some inv ∧
      List.lookup "GameFlags.MYSTERY" inv = some "mystery_seed" :=
  (get_inv_enums_map_spec sampleExt).2 "gameflags"
    (gameflags_entries.map (fun p => (p.1, sampleExt.strGF p.2)))
    (by decide) (by decide) "mystery_seed" "GameFlags.MYSTERY" (by decide)

/-- Helper for C7: without the `MYSTERY` flag, `configure_seed_from_settings`
returns normally on every input. -/
theorem configure_no_mystery_ok (settings : Settings) (is_race_seed : Bool)
    (randSeeds : List String) (nonceMicro : Nat)
    (h : GameFlags.MYSTERY ∉ settings.gameflags) :
    ∃ v, configure_seed_from_settings settings is_race_seed randSeeds nonceMicro =
      Except.ok v := by
  rw [configure_seed_from_settings, if_neg h]
  cases hf : findNewSeed settings.seed randSeeds with
  | none => exact ⟨none, rfl⟩
  | some ns =>
    cases is_race_seed with
    | false => exact ⟨some ⟨"", ns, { settings with seed := ns }⟩, rfl⟩
    | true =>
      exact ⟨some ⟨toString nonceMicro, ns ++ toString nonceMicro,
        { settings with seed := ns }⟩, rfl⟩

/-- C7: among the visible operations, a run raises
`InvalidSettingsException` exactly when the operation is
`configure_seed_from_settings` on a settings object whose `gameflags`
contain `MYSTERY`; no other operation ever raises it. -/
theorem invalid_settings_exception_only (op : Operation) :
    (∃ e, runOperation op = Except.error e) ↔
      (∃ settings is_race_seed randSeeds nonceMicro,
        op = Operation.configureSeedOp settings is_race_seed randSeeds nonceMicro ∧
        GameFlags.MYSTERY ∈ settings.gameflags) := by
  cases op with
  | clampOp v lo hi => simp [runOperation]
  | getCharacterNameOp n d => simp [runOperation]
  | getWebSpoilerLogOp gps s c => simp [runOperation]
  | getInvEnumsMapOp ext => simp [runOperation]
  | getBaseRomOp cwd fs => simp [runOperation]
  | configureSeedOp s race rs n =>
    by_cases hm : GameFlags.MYSTERY ∈ s.gameflags
    · constructor
      · intro _
        exact ⟨s, race, rs, n, rfl, hm⟩
      · intro _
        refine ⟨⟨"Mystery seeds cannot be cloned."⟩, ?_⟩
        show (configure_seed_from_settings s race rs n).map OpResult.cfgRes = _
        rw [configure_mystery_raises s race rs n hm]
        rfl
    · constructor
      · rintro ⟨e, he⟩
        exfalso
        obtain ⟨v, hv⟩ := configure_no_mystery_ok s race rs n hm
        rw [show runOperation (Operation.configureSeedOp s race rs n) =
          (configure_seed_from_settings s race rs n).map OpResult.cfgRes from rfl, hv] at he
        exact Except.noConfusion he
      · rintro ⟨s2, r2, rs2, n2, heq, hm2⟩
        cases heq
        exact absurd hm2 hm

/-- Witness for C7: a concrete mystery clone attempt errors, a concrete
clamp call does not. -/
theorem invalid_settings_exception_only_witness :
    (∃ e, runOperation (Operation.configureSeedOp ⟨"AB", [GameFlags.MYSTERY], ⟨1⟩, []⟩
      false [] 0) = Except.error e) ∧
    ¬(∃ e, runOperation (Operation.clampOp 3 0 7) = Except.error e) :=
  ⟨(invalid_settings_exception_only _).mpr
      ⟨⟨"AB", [GameFlags.MYSTERY], ⟨1⟩, []⟩, false, [], 0, rfl, by decide⟩,
   fun h =>
      (by simpa [runOperation] using
        (invalid_settings_exception_only (Operation.clampOp 3 0 7)).mp h : False)⟩

end CtjotWeb
